import Mathlib

/-
Shallow embedding of go-asynctask (src/async_task.go).

The package implements a future/promise-style task handle (TaskStatus)
with a string-typed State, a commit-once finish routine, cooperative
Cancel, Wait and WaitWithTimeout, a panic guard around the user function,
and a reflect-based normalization of nil-pointer-backed error values.

Modelling decisions:
- Go State is a string type; we keep it as String so that the behaviour of
  IsTerminalState on arbitrary strings (including the zero value) is faithful.
- Go interface error values are Option GoErr: none is the literal nil
  interface; some e is a non-nil interface whose dynamic type has a reflect
  kind (pointer or struct) and, for pointer kinds, a concrete nil flag.
- reflect.Value.IsNil is total on pointer kinds and panics on struct kinds;
  we model it in Except, with the error carrying the runtime panic message.
- The three sentinel errors and the fmt.Errorf panic wrapper are modelled
  with an error-category tag standing for the errors.Is wrap chain.
- Concurrency is modelled sequentially with explicit times (Nat): the
  runner is a pending finish event at a fixed time, and each wait call
  first applies any runner commit that is due.  The select race in
  WaitWithTimeout is resolved by comparing the runner finish time with the
  deadline.  Nil function/pointer dereference is modelled by Option: none
  means the Go code would crash or block forever.
-/

namespace Asynctask

/-- Go: type State string. -/
abbrev State := String

def StateRunning : State := "Running"

def StateCompleted : State := "Completed"

def StateFailed : State := "Failed"

def StateCanceled : State := "Canceled"

/-- Go: func (s State) IsTerminalState() bool { return s != StateRunning }. -/
def State.IsTerminalState (s : State) : Bool :=
  s != StateRunning

/-- reflect kind of the dynamic type stored in an error interface value. -/
inductive ErrKind where
  | ptrKind
  | structKind
  deriving DecidableEq, Repr

/-- Category of an error, standing for the errors.Is classification chain:
a wrapped ErrPanic, ErrTimeout or ErrCanceled sentinel, or an ordinary
user error. -/
inductive ErrCat where
  | userCat
  | panicCat
  | timeoutCat
  | canceledCat
  deriving DecidableEq, Repr

/-- A non-nil Go error interface value: its dynamic reflect kind, whether
the concrete value is a nil pointer (meaningful for ptrKind), its
errors.Is category and its message. -/
structure GoErr where
  kind : ErrKind
  nilPtr : Bool
  cat : ErrCat
  msg : String
  deriving DecidableEq, Repr

/-- Go: var ErrPanic = errors.New("panic").  errors.New returns a non-nil
pointer (ptrKind). -/
def ErrPanic : GoErr := ⟨ErrKind.ptrKind, false, ErrCat.panicCat, "panic"⟩

/-- Go: var ErrTimeout = errors.New("timeout"). -/
def ErrTimeout : GoErr := ⟨ErrKind.ptrKind, false, ErrCat.timeoutCat, "timeout"⟩

/-- Go: var ErrCanceled = errors.New("canceled"). -/
def ErrCanceled : GoErr := ⟨ErrKind.ptrKind, false, ErrCat.canceledCat, "canceled"⟩

/-- The error built in the recover branch of runAndTrackTask:
fmt.Errorf("Panic cought: %v, StackTrace: %s, %w", r, debug.Stack(), ErrPanic).
The stack trace is elided; the %w wrap of ErrPanic is the panicCat tag. -/
def panicWrapErr (payload : String) : GoErr :=
  ⟨ErrKind.ptrKind, false, ErrCat.panicCat, "Panic cought: " ++ payload⟩

/-- The message of the runtime panic raised by reflect.Value.IsNil when the
value has struct kind. -/
def reflectIsNilStructMsg : String :=
  "reflect: call of reflect.Value.IsNil on struct Value"

/-- Go: reflect.ValueOf(err).IsNil().  Defined for nilable kinds (pointer);
panics (Except.error with the runtime message) on struct kind. -/
def reflectIsNil (e : GoErr) : Except String Bool :=
  match e.kind with
  | ErrKind.ptrKind => Except.ok e.nilPtr
  | ErrKind.structKind => Except.error reflectIsNilStructMsg

/-- Result value of a task function: Go interface value (nil, int or string
are enough for the claims). -/
inductive GoValue where
  | vNil
  | vInt (n : Int)
  | vStr (s : String)
  deriving DecidableEq, Repr

/-- How one invocation of the user function ends: a panic with a payload,
or a normal return of (value, error-interface-value). -/
inductive TaskOutcome where
  | panicked (payload : String)
  | returned (v : GoValue) (e : Option GoErr)
  deriving DecidableEq, Repr

/-- The (state, result, err) triple that runAndTrackTask passes to the
single finish call it makes for a given outcome of the user function
(src/async_task.go lines 138-160):
- panic: recover builds the wrapped panic error, finish(StateFailed, nil, err);
- nil error interface: finish(StateCompleted, result, nil);
- non-nil error interface: reflect.ValueOf(err).IsNil() is evaluated;
  if it yields true, finish(StateCompleted, result, nil); if false,
  finish(StateFailed, result, err); if it panics (struct kind), the
  deferred recover catches that panic and calls finish(StateFailed, nil,
  wrapped-panic-error). -/
def runFinishArgs : TaskOutcome → State × GoValue × Option GoErr
  | TaskOutcome.panicked p => (StateFailed, GoValue.vNil, some (panicWrapErr p))
  | TaskOutcome.returned v none => (StateCompleted, v, none)
  | TaskOutcome.returned v (some ge) =>
      match reflectIsNil ge with
      | Except.ok true => (StateCompleted, v, none)
      | Except.ok false => (StateFailed, v, some ge)
      | Except.error m => (StateFailed, GoValue.vNil, some (panicWrapErr m))

/-- Go: type TaskStatus struct.  cancelFunc and waitGroup are pointers that
may be nil (NewCompletedTask); we track only their non-nilness. -/
structure TaskStatus where
  state : State
  result : GoValue
  err : Option GoErr
  hasCancelFunc : Bool
  hasWaitGroup : Bool
  deriving DecidableEq, Repr

/-- Go: func (t *TaskStatus) finish(state State, result interface.., err error):
only updates state, result and err if the current state is not terminal. -/
def finish (t : TaskStatus) (s : State) (r : GoValue) (e : Option GoErr) : TaskStatus :=
  if State.IsTerminalState t.state then t
  else { t with state := s, result := r, err := e }

/-- Go: func (t *TaskStatus) Cancel().  Returns none when the Go code would
dereference a nil cancelFunc; otherwise some (updated handle, whether the
cancellation trigger was invoked). -/
def Cancel (t : TaskStatus) : Option (TaskStatus × Bool) :=
  if State.IsTerminalState t.state then some (t, false)
  else if t.hasCancelFunc then
    some (finish t StateCanceled GoValue.vNil (some ErrCanceled), true)
  else none

/-- Go: func NewCompletedTask() *TaskStatus: state Completed, nil result,
nil error, nil cancelFunc, nil waitGroup. -/
def NewCompletedTask : TaskStatus :=
  ⟨StateCompleted, GoValue.vNil, none, false, false⟩

/-- The record allocated by Start before launching the runner: Running
state, nil result, nil error, fresh cancelFunc and waitGroup. -/
def startRecord : TaskStatus :=
  ⟨StateRunning, GoValue.vNil, none, true, true⟩

/-- The background runner of one Start call: the user function's outcome
and the absolute time at which it finishes and commits. -/
structure Runner where
  finishTime : Nat
  outcome : TaskOutcome
  deriving DecidableEq, Repr

/-- Apply the runner's finish call for an outcome to a handle. -/
def applyRunner (t : TaskStatus) (o : TaskOutcome) : TaskStatus :=
  let a := runFinishArgs o
  finish t a.1 a.2.1 a.2.2

/-- One handle together with its (possibly absent) background runner and
whether the runner has already committed. -/
structure Sys where
  handle : TaskStatus
  runner : Option Runner
  committed : Bool
  deriving DecidableEq, Repr

/-- Advance background time to now: if the runner's finish time has passed
and it has not committed yet, its finish call takes effect. -/
def commitIfDue (sys : Sys) (now : Nat) : Sys :=
  match sys.runner with
  | none => sys
  | some rn =>
      if ¬sys.committed ∧ rn.finishTime ≤ now then
        { sys with handle := applyRunner sys.handle rn.outcome, committed := true }
      else sys

/-- Go: func (t *TaskStatus) Wait(), called at absolute time now.
Returns none when the Go code would dereference a nil pointer or block
forever; otherwise some (system after the wait, return time, result, err).
If the handle is already terminal it returns immediately; otherwise it
blocks on the waitGroup until the runner commits (the deferred
t.cancelFunc() only releases the context and has no modelled effect). -/
def waitAt (sys : Sys) (now : Nat) : Option (Sys × Nat × GoValue × Option GoErr) :=
  let sys1 := commitIfDue sys now
  if State.IsTerminalState sys1.handle.state then
    some (sys1, now, sys1.handle.result, sys1.handle.err)
  else if sys1.handle.hasCancelFunc ∧ sys1.handle.hasWaitGroup then
    match sys1.runner with
    | some rn =>
        let sys2 := commitIfDue sys1 rn.finishTime
        some (sys2, rn.finishTime, sys2.handle.result, sys2.handle.err)
    | none => none
  else none

/-- Go: func (t *TaskStatus) WaitWithTimeout(timeout), called at time now.
If already terminal, returns immediately.  Otherwise races the completion
channel (which closes at the runner's finish time) against time.After(d):
if the runner finishes no later than now + d, the completion branch
returns the committed outcome; otherwise the timeout branch calls
t.finish(StateCanceled, nil, ErrTimeout) and returns the handle's
(now frozen) result and error. -/
def waitWithTimeoutAt (sys : Sys) (now d : Nat) :
    Option (Sys × Nat × GoValue × Option GoErr) :=
  let sys1 := commitIfDue sys now
  if State.IsTerminalState sys1.handle.state then
    some (sys1, now, sys1.handle.result, sys1.handle.err)
  else if sys1.handle.hasCancelFunc ∧ sys1.handle.hasWaitGroup then
    match sys1.runner with
    | some rn =>
        if rn.finishTime ≤ now + d then
          let sys2 := commitIfDue sys1 rn.finishTime
          some (sys2, rn.finishTime, sys2.handle.result, sys2.handle.err)
        else
          let h2 := finish sys1.handle StateCanceled GoValue.vNil (some ErrTimeout)
          some ({ sys1 with handle := h2 }, now + d, h2.result, h2.err)
    | none => none
  else none

/-- The system produced by the timeout branch of WaitWithTimeout. -/
def timeoutFinalize (sys : Sys) : Sys :=
  { sys with handle := finish sys.handle StateCanceled GoValue.vNil (some ErrTimeout) }

/-- A system with no background runner, as produced by NewCompletedTask. -/
def completedSys : Sys := ⟨NewCompletedTask, none, false⟩

/-- A struct-kind (non-pointer) user error, as the structError type with a
value receiver in the repository's tests. -/
def structUserErr : GoErr :=
  ⟨ErrKind.structKind, false, ErrCat.userCat, "Error from struct type"⟩

/-- The system at Start for a task that returns (9, nil) after 200ms. -/
def sysC2 : Sys :=
  ⟨startRecord, some ⟨200, TaskOutcome.returned (GoValue.vInt 9) none⟩, false⟩

/-- sysC2 after the runner has committed its successful result. -/
def sysC2done : Sys :=
  ⟨⟨StateCompleted, GoValue.vInt 9, none, true, true⟩,
   some ⟨200, TaskOutcome.returned (GoValue.vInt 9) none⟩, true⟩

/-- The state-error invariant: Completed handles carry no error; Failed and
Canceled handles carry a non-nil error. -/
def errStateInv (t : TaskStatus) : Prop :=
  (t.state = StateCompleted → t.err = none) ∧
  ((t.state = StateFailed ∨ t.state = StateCanceled) → t.err.isSome = true)

/-- Handles reachable through the public operations: the record allocated
by Start, the handle of NewCompletedTask, and closure under the runner's
finish, Cancel, and the timeout finalization of WaitWithTimeout. -/
inductive Reachable : TaskStatus → Prop where
  | start : Reachable startRecord
  | completedTask : Reachable NewCompletedTask
  | runnerFinish (t : TaskStatus) (o : TaskOutcome) :
      Reachable t → Reachable (applyRunner t o)
  | cancelStep (t u : TaskStatus) (b : Bool) :
      Reachable t → Cancel t = some (u, b) → Reachable u
  | timeoutStep (t : TaskStatus) :
      Reachable t → Reachable (finish t StateCanceled GoValue.vNil (some ErrTimeout))

/- Helper lemmas. -/

theorem finish_of_terminal (t : TaskStatus) (s : State) (r : GoValue)
    (e : Option GoErr) (h : State.IsTerminalState t.state = true) :
    finish t s r e = t := by
  simp [finish, h]

theorem finish_of_running (t : TaskStatus) (s : State) (r : GoValue)
    (e : Option GoErr) (h : State.IsTerminalState t.state = false) :
    finish t s r e = { t with state := s, result := r, err := e } := by
  simp [finish, h]

theorem applyRunner_of_terminal (t : TaskStatus) (o : TaskOutcome)
    (h : State.IsTerminalState t.state = true) : applyRunner t o = t := by
  simp [applyRunner, finish_of_terminal _ _ _ _ h]

theorem commitIfDue_handle_of_terminal (sys : Sys) (now : Nat)
    (h : State.IsTerminalState sys.handle.state = true) :
    (commitIfDue sys now).handle = sys.handle := by
  unfold commitIfDue
  split
  · rfl
  · split
    · simp [applyRunner_of_terminal _ _ h]
    · rfl

theorem waitAt_of_terminal (sys : Sys) (now : Nat)
    (h : State.IsTerminalState sys.handle.state = true) :
    (waitAt sys now).map (fun r => r.2) =
      some (now, sys.handle.result, sys.handle.err) := by
  have hh := commitIfDue_handle_of_terminal sys now h
  unfold waitAt
  simp [hh, h]

theorem waitWithTimeoutAt_of_terminal (sys : Sys) (now d : Nat)
    (h : State.IsTerminalState sys.handle.state = true) :
    (waitWithTimeoutAt sys now d).map (fun r => r.2) =
      some (now, sys.handle.result, sys.handle.err) := by
  have hh := commitIfDue_handle_of_terminal sys now h
  unfold waitWithTimeoutAt
  simp [hh, h]

/- Claim theorems. -/

/-- C1: for every task function that returns normally with a value and an
error interface wrapping a nil concrete pointer, the runner finalizes to
Completed with that value and a nil error, exactly as if the function had
returned a literal nil error. -/
theorem C1_nil_pointer_error_completes (v : GoValue) (c : ErrCat) (m : String) :
    runFinishArgs (TaskOutcome.returned v (some ⟨ErrKind.ptrKind, true, c, m⟩)) =
      (StateCompleted, v, none) ∧
    runFinishArgs (TaskOutcome.returned v (some ⟨ErrKind.ptrKind, true, c, m⟩)) =
      runFinishArgs (TaskOutcome.returned v none) :=
  ⟨rfl, rfl⟩

/-- C5: a task function that panics is finalized to Failed with a non-nil
error of the panic category, distinguishable from the user, timeout and
canceled categories.  runFinishArgs being total on the panicked outcome is
the model of the recover guard: the panic is converted into a finish call
instead of propagating. -/
theorem C5_panic_failed_classifiable (p : String) :
    runFinishArgs (TaskOutcome.panicked p) =
      (StateFailed, GoValue.vNil, some (panicWrapErr p)) ∧
    (panicWrapErr p).cat = ErrCat.panicCat ∧
    ErrCat.panicCat ≠ ErrCat.userCat ∧
    ErrCat.panicCat ≠ ErrCat.timeoutCat ∧
    ErrCat.panicCat ≠ ErrCat.canceledCat ∧
    (some (panicWrapErr p)).isSome = true :=
  ⟨rfl, rfl, by decide, by decide, by decide, rfl⟩

/-- C4 counterexample: a task function that returns normally with a non-nil
error of struct reflect kind is NOT finalized with that error passed
through verbatim: reflect.Value.IsNil panics on struct kind, the recover
guard catches it, and the handle is finalized to Failed with a
panic-category error different from the user error. -/
theorem C4_counterexample_struct_error :
    runFinishArgs (TaskOutcome.returned GoValue.vNil (some structUserErr)) =
      (StateFailed, GoValue.vNil, some (panicWrapErr reflectIsNilStructMsg)) ∧
    panicWrapErr reflectIsNilStructMsg ≠ structUserErr ∧
    (panicWrapErr reflectIsNilStructMsg).cat ≠ ErrCat.userCat :=
  ⟨rfl, by decide, by decide⟩

/-- C4 (amended): a task function that returns normally with a non-nil
error of pointer kind whose concrete pointer is non-nil is finalized to
Failed with exactly that error passed through verbatim; a non-nil error of
struct kind instead makes the reflect nil-check panic, and the handle is
finalized to Failed with a panic-category error in place of the user
error. -/
theorem C4_pointer_error_passthrough (v : GoValue) (e f : GoErr)
    (hk : e.kind = ErrKind.ptrKind) (hnil : e.nilPtr = false)
    (hf : f.kind = ErrKind.structKind) :
    runFinishArgs (TaskOutcome.returned v (some e)) = (StateFailed, v, some e) ∧
    runFinishArgs (TaskOutcome.returned v (some f)) =
      (StateFailed, GoValue.vNil, some (panicWrapErr reflectIsNilStructMsg)) ∧
    (panicWrapErr reflectIsNilStructMsg).cat = ErrCat.panicCat := by
  refine ⟨?_, ?_, rfl⟩
  · simp [runFinishArgs, reflectIsNil, hk, hnil]
  · simp [runFinishArgs, reflectIsNil, hf]

/-- C4 witness: the amended theorem at a concrete pointer-kind user error
and the concrete struct-kind user error. -/
theorem C4_pointer_error_passthrough_witness :
    (⟨ErrKind.ptrKind, false, ErrCat.userCat, "dummy error"⟩ : GoErr).kind =
      ErrKind.ptrKind ∧
    structUserErr.kind = ErrKind.structKind ∧
    (runFinishArgs (TaskOutcome.returned (GoValue.vStr "Done")
        (some ⟨ErrKind.ptrKind, false, ErrCat.userCat, "dummy error"⟩)) =
      (StateFailed, GoValue.vStr "Done",
        some ⟨ErrKind.ptrKind, false, ErrCat.userCat, "dummy error"⟩) ∧
    runFinishArgs (TaskOutcome.returned (GoValue.vStr "Done") (some structUserErr)) =
      (StateFailed, GoValue.vNil, some (panicWrapErr reflectIsNilStructMsg)) ∧
    (panicWrapErr reflectIsNilStructMsg).cat = ErrCat.panicCat) :=
  ⟨rfl, rfl, C4_pointer_error_passthrough (GoValue.vStr "Done") _ _ rfl rfl rfl⟩

/-- C6: once a handle is in a terminal state, every subsequent finalize
attempt — a direct finish call (as made by the runner or by the
WaitWithTimeout timeout branch), a Cancel call, or the runner commit for
any outcome — leaves state, result and error unchanged, so only the first
terminal transition ever takes effect. -/
theorem C6_finalize_once (t : TaskStatus) (s : State) (r : GoValue)
    (e : Option GoErr) (o : TaskOutcome)
    (h : State.IsTerminalState t.state = true) :
    finish t s r e = t ∧
    Cancel t = some (t, false) ∧
    applyRunner t o = t := by
  refine ⟨finish_of_terminal _ _ _ _ h, ?_, applyRunner_of_terminal _ _ h⟩
  simp [Cancel, h]

/-- C6 witness: the theorem at the already-Completed handle of
NewCompletedTask, a Failed finish attempt and a panicked runner outcome. -/
theorem C6_finalize_once_witness :
    State.IsTerminalState NewCompletedTask.state = true ∧
    (finish NewCompletedTask StateFailed GoValue.vNil (some ErrCanceled) =
        NewCompletedTask ∧
      Cancel NewCompletedTask = some (NewCompletedTask, false) ∧
      applyRunner NewCompletedTask (TaskOutcome.panicked "yo") = NewCompletedTask) :=
  ⟨rfl, C6_finalize_once NewCompletedTask StateFailed GoValue.vNil
    (some ErrCanceled) (TaskOutcome.panicked "yo") rfl⟩

theorem stateFailed_ne_completed : StateFailed ≠ StateCompleted := by decide

theorem stateCompleted_ne_failed : StateCompleted ≠ StateFailed := by decide

theorem stateCompleted_ne_canceled : StateCompleted ≠ StateCanceled := by decide

theorem stateCanceled_ne_completed : StateCanceled ≠ StateCompleted := by decide

theorem stateRunning_ne_completed : StateRunning ≠ StateCompleted := by decide

theorem stateRunning_ne_failed : StateRunning ≠ StateFailed := by decide

theorem stateRunning_ne_canceled : StateRunning ≠ StateCanceled := by decide

/-- Helper: finish preserves the state-error invariant whenever the written
triple itself satisfies it. -/
theorem errStateInv_finish (t : TaskStatus) (s : State) (r : GoValue)
    (e : Option GoErr) (ht : errStateInv t)
    (hc : s = StateCompleted → e = none)
    (hf : (s = StateFailed ∨ s = StateCanceled) → e.isSome = true) :
    errStateInv (finish t s r e) := by
  unfold finish
  split
  · exact ht
  · exact ⟨hc, hf⟩

/-- Helper: the finish triple produced by the runner for any outcome
satisfies the state-error invariant. -/
theorem runFinishArgs_state_err (o : TaskOutcome) :
    ((runFinishArgs o).1 = StateCompleted → (runFinishArgs o).2.2 = none) ∧
    (((runFinishArgs o).1 = StateFailed ∨ (runFinishArgs o).1 = StateCanceled) →
      (runFinishArgs o).2.2.isSome = true) := by
  cases o with
  | panicked p => exact ⟨fun h => absurd h stateFailed_ne_completed, fun _ => rfl⟩
  | returned v e =>
      cases e with
      | none =>
          exact ⟨fun _ => rfl, fun h => by
            rcases h with h | h
            · exact absurd h stateCompleted_ne_failed
            · exact absurd h stateCompleted_ne_canceled⟩
      | some ge =>
          obtain ⟨k, np, c, m⟩ := ge
          cases k with
          | ptrKind =>
              cases np with
              | true =>
                  exact ⟨fun _ => rfl, fun h => by
                    rcases h with h | h
                    · exact absurd h stateCompleted_ne_failed
                    · exact absurd h stateCompleted_ne_canceled⟩
              | false =>
                  exact ⟨fun h => absurd h stateFailed_ne_completed, fun _ => rfl⟩
          | structKind =>
              exact ⟨fun h => absurd h stateFailed_ne_completed, fun _ => rfl⟩

/-- C7: every handle reachable through Start, NewCompletedTask and any
sequence of runner finishes, Cancel calls and wait timeouts satisfies the
state-error invariant: Completed implies a nil error, Failed or Canceled
implies a non-nil error. -/
theorem C7_state_error_invariant (t : TaskStatus) (h : Reachable t) :
    errStateInv t := by
  induction h with
  | start =>
      exact ⟨fun h => absurd h stateRunning_ne_completed, fun h => by
        rcases h with h | h
        · exact absurd h stateRunning_ne_failed
        · exact absurd h stateRunning_ne_canceled⟩
  | completedTask =>
      exact ⟨fun _ => rfl, fun h => by
        rcases h with h | h
        · exact absurd h stateCompleted_ne_failed
        · exact absurd h stateCompleted_ne_canceled⟩
  | runnerFinish t o _ ih =>
      have hro := runFinishArgs_state_err o
      exact errStateInv_finish t _ _ _ ih hro.1 hro.2
  | cancelStep t u b _ hc ih =>
      unfold Cancel at hc
      split at hc
      · rw [Option.some_inj, Prod.mk.injEq] at hc
        rw [← hc.1]
        exact ih
      · split at hc
        · rw [Option.some_inj, Prod.mk.injEq] at hc
          rw [← hc.1]
          exact errStateInv_finish t _ _ _ ih
            (fun h => absurd h stateCanceled_ne_completed) (fun _ => rfl)
        · exact absurd hc (by simp)
  | timeoutStep t _ ih =>
      exact errStateInv_finish t _ _ _ ih
        (fun h => absurd h stateCanceled_ne_completed) (fun _ => rfl)

/-- C7 witness: the invariant at the concrete reachable handle of
NewCompletedTask. -/
theorem C7_state_error_invariant_witness :
    Reachable NewCompletedTask ∧ errStateInv NewCompletedTask :=
  ⟨Reachable.completedTask,
    C7_state_error_invariant NewCompletedTask Reachable.completedTask⟩

/-- C8: on the NewCompletedTask handle (Completed, nil result, nil error,
nil cancelFunc, nil waitGroup), Cancel is a no-op and Wait and
WaitWithTimeout with any duration return (nil, nil) immediately; the some
results witness that the nil cancelFunc and nil waitGroup are never
dereferenced (the terminal-state guard returns first). -/
theorem C8_completed_task_safe (now d : Nat) :
    Cancel NewCompletedTask = some (NewCompletedTask, false) ∧
    waitAt completedSys now = some (completedSys, now, GoValue.vNil, none) ∧
    waitWithTimeoutAt completedSys now d =
      some (completedSys, now, GoValue.vNil, none) ∧
    NewCompletedTask.hasCancelFunc = false ∧
    NewCompletedTask.hasWaitGroup = false :=
  ⟨rfl, rfl, rfl, rfl, rfl⟩

/-- C9: Cancel on a non-terminal handle invokes the cancellation trigger
(the true flag) and immediately finalizes the handle to Canceled with the
sentinel canceled error; Cancel on an already-terminal handle is a no-op
returning the handle unchanged with the trigger not invoked. -/
theorem C9_cancel_behavior (t u : TaskStatus)
    (h1 : State.IsTerminalState t.state = false)
    (h2 : t.hasCancelFunc = true)
    (h3 : State.IsTerminalState u.state = true) :
    Cancel t = some (finish t StateCanceled GoValue.vNil (some ErrCanceled), true) ∧
    (finish t StateCanceled GoValue.vNil (some ErrCanceled)).state = StateCanceled ∧
    (finish t StateCanceled GoValue.vNil (some ErrCanceled)).err = some ErrCanceled ∧
    State.IsTerminalState
      (finish t StateCanceled GoValue.vNil (some ErrCanceled)).state = true ∧
    ErrCanceled.cat = ErrCat.canceledCat ∧
    Cancel u = some (u, false) := by
  have hfin := finish_of_running t StateCanceled GoValue.vNil (some ErrCanceled) h1
  refine ⟨?_, ?_, ?_, ?_, rfl, ?_⟩
  · simp [Cancel, h1, h2]
  · rw [hfin]
  · rw [hfin]
  · rw [hfin]; rfl
  · simp [Cancel, h3]

/-- C9 witness: the theorem at the fresh Running record of Start and the
terminal handle of NewCompletedTask. -/
theorem C9_cancel_behavior_witness :
    State.IsTerminalState startRecord.state = false ∧
    startRecord.hasCancelFunc = true ∧
    State.IsTerminalState NewCompletedTask.state = true ∧
    (Cancel startRecord =
        some (finish startRecord StateCanceled GoValue.vNil (some ErrCanceled),
          true) ∧
      (finish startRecord StateCanceled GoValue.vNil (some ErrCanceled)).state =
        StateCanceled ∧
      (finish startRecord StateCanceled GoValue.vNil (some ErrCanceled)).err =
        some ErrCanceled ∧
      State.IsTerminalState
        (finish startRecord StateCanceled GoValue.vNil (some ErrCanceled)).state =
          true ∧
      ErrCanceled.cat = ErrCat.canceledCat ∧
      Cancel NewCompletedTask = some (NewCompletedTask, false)) :=
  ⟨rfl, rfl, rfl, C9_cancel_behavior startRecord NewCompletedTask rfl rfl rfl⟩

/-- C2 counterexample: in the scenario of the claim — the task finishes at
200ms with (9, nil) and the first WaitWithTimeout has a 300ms deadline —
the completion signal (200ms) wins the race against the deadline (300ms),
so the first wait returns a nil error, not a timeout-classified error. -/
theorem C2_counterexample_first_wait_no_timeout :
    (waitWithTimeoutAt sysC2 0 300).map (fun r => r.2.2.2) = some none ∧
    (waitWithTimeoutAt sysC2 0 300).map (fun r => r.2.2.2) ≠
      some (some ErrTimeout) :=
  ⟨rfl, by decide⟩

/-- C2 (amended): with the task finishing at 200ms with (9, nil), the
first WaitWithTimeout of 300ms does not time out: the completion wins the
race and the wait returns (9, nil) at 200ms; the second wait of 2s and the
third wait of 2ns then return (9, nil) immediately from the frozen
terminal state. -/
theorem C2_amended_scenario :
    waitWithTimeoutAt sysC2 0 300 = some (sysC2done, 200, GoValue.vInt 9, none) ∧
    waitWithTimeoutAt sysC2done 200 2000 =
      some (sysC2done, 200, GoValue.vInt 9, none) ∧
    waitWithTimeoutAt sysC2done 200 2 =
      some (sysC2done, 200, GoValue.vInt 9, none) :=
  ⟨rfl, rfl, rfl⟩

/-- C3: if the deadline of WaitWithTimeout elapses strictly before the
runner finishes, the handle is finalized to Canceled with the sentinel
timeout error (classified in the timeout category), and every subsequent
Wait or WaitWithTimeout call, at any later or earlier time and with any
duration, returns immediately with that same frozen timeout outcome
instead of re-attaching to the still-running work. -/
theorem C3_timeout_freezes (sys : Sys) (rn : Runner) (now d now2 d2 : Nat)
    (h1 : State.IsTerminalState sys.handle.state = false)
    (h2 : sys.runner = some rn)
    (h3 : now + d < rn.finishTime)
    (h4 : sys.handle.hasCancelFunc = true)
    (h5 : sys.handle.hasWaitGroup = true) :
    waitWithTimeoutAt sys now d =
      some (timeoutFinalize sys, now + d, GoValue.vNil, some ErrTimeout) ∧
    (timeoutFinalize sys).handle.state = StateCanceled ∧
    ErrTimeout.cat = ErrCat.timeoutCat ∧
    (waitAt (timeoutFinalize sys) now2).map (fun r => r.2) =
      some (now2, GoValue.vNil, some ErrTimeout) ∧
    (waitWithTimeoutAt (timeoutFinalize sys) now2 d2).map (fun r => r.2) =
      some (now2, GoValue.vNil, some ErrTimeout) := by
  have hnow : ¬(rn.finishTime ≤ now) := by omega
  have hcd : commitIfDue sys now = sys := by
    unfold commitIfDue
    rw [h2]
    simp [hnow]
  have hfin := finish_of_running sys.handle StateCanceled GoValue.vNil
    (some ErrTimeout) h1
  have hts : (timeoutFinalize sys).handle.state = StateCanceled := by
    simp [timeoutFinalize, hfin]
  have hterm : State.IsTerminalState (timeoutFinalize sys).handle.state = true := by
    rw [hts]; rfl
  have hres : (timeoutFinalize sys).handle.result = GoValue.vNil := by
    simp [timeoutFinalize, hfin]
  have herr : (timeoutFinalize sys).handle.err = some ErrTimeout := by
    simp [timeoutFinalize, hfin]
  have hd : ¬(rn.finishTime ≤ now + d) := by omega
  refine ⟨?_, hts, rfl, ?_, ?_⟩
  · unfold waitWithTimeoutAt
    rw [hcd]
    simp [h1, h2, h4, h5, hd, timeoutFinalize, hfin]
  · rw [waitAt_of_terminal _ _ hterm, hres, herr]
  · rw [waitWithTimeoutAt_of_terminal _ _ _ hterm, hres, herr]

/-- C3 witness: the theorem at a fresh Start record whose task finishes at
time 500 with (9, nil), a first wait deadline of 300, and a subsequent
wait at time 1000 with duration 7. -/
theorem C3_timeout_freezes_witness :
    State.IsTerminalState
      (Sys.mk startRecord
        (some ⟨500, TaskOutcome.returned (GoValue.vInt 9) none⟩) false).handle.state
      = false ∧
    (Sys.mk startRecord
      (some ⟨500, TaskOutcome.returned (GoValue.vInt 9) none⟩) false).runner =
      some ⟨500, TaskOutcome.returned (GoValue.vInt 9) none⟩ ∧
    0 + 300 < 500 ∧
    (waitWithTimeoutAt
        (Sys.mk startRecord
          (some ⟨500, TaskOutcome.returned (GoValue.vInt 9) none⟩) false) 0 300 =
      some (timeoutFinalize
        (Sys.mk startRecord
          (some ⟨500, TaskOutcome.returned (GoValue.vInt 9) none⟩) false),
        0 + 300, GoValue.vNil, some ErrTimeout) ∧
    (timeoutFinalize
      (Sys.mk startRecord
        (some ⟨500, TaskOutcome.returned (GoValue.vInt 9) none⟩) false)).handle.state =
      StateCanceled ∧
    ErrTimeout.cat = ErrCat.timeoutCat ∧
    (waitAt (timeoutFinalize
        (Sys.mk startRecord
          (some ⟨500, TaskOutcome.returned (GoValue.vInt 9) none⟩) false)) 1000).map
        (fun r => r.2) =
      some (1000, GoValue.vNil, some ErrTimeout) ∧
    (waitWithTimeoutAt (timeoutFinalize
        (Sys.mk startRecord
          (some ⟨500, TaskOutcome.returned (GoValue.vInt 9) none⟩) false)) 1000 7).map
        (fun r => r.2) =
      some (1000, GoValue.vNil, some ErrTimeout)) :=
  ⟨rfl, rfl, by decide,
    C3_timeout_freezes _ _ 0 300 1000 7 rfl rfl (by decide) rfl rfl⟩

/-- C10: IsTerminalState is true for every State string other than the
literal Running string — including the zero value, the empty string — and
a handle whose state is any such string is treated as finished by the
terminal-state guards: finish is a no-op, Cancel is a no-op, and Wait and
WaitWithTimeout return its stored result and error immediately. -/
theorem C10_terminal_unless_running (s : State) (t : TaskStatus) (s2 : State)
    (r : GoValue) (e : Option GoErr) (now d : Nat)
    (h : s ≠ StateRunning) (ht : t.state ≠ StateRunning) :
    State.IsTerminalState s = true ∧
    State.IsTerminalState "" = true ∧
    State.IsTerminalState StateRunning = false ∧
    finish t s2 r e = t ∧
    Cancel t = some (t, false) ∧
    waitAt ⟨t, none, false⟩ now = some (⟨t, none, false⟩, now, t.result, t.err) ∧
    waitWithTimeoutAt ⟨t, none, false⟩ now d =
      some (⟨t, none, false⟩, now, t.result, t.err) := by
  have hts : State.IsTerminalState t.state = true := by
    simp [State.IsTerminalState, ht]
  refine ⟨?_, rfl, rfl, finish_of_terminal _ _ _ _ hts, ?_, ?_, ?_⟩
  · simp [State.IsTerminalState, h]
  · simp [Cancel, hts]
  · unfold waitAt commitIfDue
    simp [hts]
  · unfold waitWithTimeoutAt commitIfDue
    simp [hts]

/-- C10 witness: the theorem at the zero value of State (the empty string)
and a zero-valued handle whose state is the empty string. -/
theorem C10_terminal_unless_running_witness :
    ("" : State) ≠ StateRunning ∧
    (TaskStatus.mk "" GoValue.vNil none false false).state ≠ StateRunning ∧
    (State.IsTerminalState "" = true ∧
      State.IsTerminalState "" = true ∧
      State.IsTerminalState StateRunning = false ∧
      finish (TaskStatus.mk "" GoValue.vNil none false false) StateCompleted
          GoValue.vNil none =
        TaskStatus.mk "" GoValue.vNil none false false ∧
      Cancel (TaskStatus.mk "" GoValue.vNil none false false) =
        some (TaskStatus.mk "" GoValue.vNil none false false, false) ∧
      waitAt ⟨TaskStatus.mk "" GoValue.vNil none false false, none, false⟩ 0 =
        some (⟨TaskStatus.mk "" GoValue.vNil none false false, none, false⟩, 0,
          GoValue.vNil, none) ∧
      waitWithTimeoutAt
          ⟨TaskStatus.mk "" GoValue.vNil none false false, none, false⟩ 0 5 =
        some (⟨TaskStatus.mk "" GoValue.vNil none false false, none, false⟩, 0,
          GoValue.vNil, none)) :=
  ⟨by decide, by decide,
    C10_terminal_unless_running "" (TaskStatus.mk "" GoValue.vNil none false false)
      StateCompleted GoValue.vNil none 0 5 (by decide) (by decide)⟩

end Asynctask
